import Mathlib

/-!
Verification of the Letterboxd scraper/analyzer core against its
natural-language specification.

The definitions below are a shallow embedding of the Python source:

* `src/backend/scraper.py` — `convert_stars_to_rating`,
  `extract_enhanced_movie_data` / `scrape_all_films` (duplicate tracking via
  `movie_id`), `save_all_data` (the reconciliation merge building
  `ratings.csv` and `likes.csv`), and the two `fetch_with_retry`
  definitions (the second one, at line 1135, shadows the first, at line
  118, because both live in class `EnhancedLetterboxdScraper`).
* `src/unified_analyzer.py` (identical in the relevant parts to
  `src/backend/core/analyzer.py`) — `find_common_movies`,
  the `rating_agreement` and `personality_match` blocks of
  `calculate_compatibility`, and the decision tree of
  `generate_personality_profile`.

Modelling conventions: Python floats that arise here are exact half-star
multiples and products of exact decimal literals, so they are embedded as
rationals; Python `None` becomes `Option.none`; Python truthiness of a
rating value (`None` and `0.0` are falsy) is `ratingTruthy`; dictionaries
built by repeated assignment keep the last binding, which `diary_lookup`
and `review_lookup` reproduce by folding left.
-/

namespace Letterboxd

/-- Truthiness of an optional rating value in Python: `None` and `0.0` are
falsy, every other float is truthy (`src/backend/scraper.py:699,705,711`). -/
def ratingTruthy : Option ℚ → Bool
  | none => false
  | some q => decide (q ≠ 0)

/-- Truthiness of an optional year in Python: `None` and `0` are falsy
(`src/backend/scraper.py:681,693,1241`). -/
def yearTruthy : Option Nat → Bool
  | none => false
  | some y => decide (y ≠ 0)

/-- Python `year or 'no_year'` as used in the FilmKey strings
(`src/backend/scraper.py:681,687,693`). -/
def yearStr : Option Nat → String
  | none => "no_year"
  | some y => if y = 0 then "no_year" else toString y

/-- The FilmKey string `f"{title}_{year or 'no_year'}"` used by the
reconciliation lookups (`src/backend/scraper.py:681,687,693`). -/
def filmKey (title : String) (year : Option Nat) : String :=
  title ++ "_" ++ yearStr year

/-- Python `year or ''` — the Year cell written into the output rows
(`src/backend/scraper.py:698,734,750`): a falsy year becomes the empty
cell, modelled as `none`. -/
def pyYear : Option Nat → Option Nat
  | none => none
  | some y => if y = 0 then none else some y

/-- `convert_stars_to_rating` (`src/backend/scraper.py:825-835`): count
the full-star and half-star symbols; an empty input or a zero total maps
to `None`, never to `0.0`. -/
def convert_stars_to_rating (stars_text : String) : Option ℚ :=
  if stars_text = "" then none
  else
    let full_stars : ℚ := stars_text.data.count '★'
    let half_stars : ℚ := stars_text.data.count '½'
    let rating := full_stars + half_stars * (0.5 : ℚ)
    if rating > 0 then some rating else none

/-- One record of `self.films_data`, the output of
`extract_enhanced_movie_data` (`src/backend/scraper.py:1247-1261`) as
consumed by `save_all_data`. -/
structure MovieData where
  title : String
  year : Option Nat
  rating : Option ℚ
  is_liked : Bool
  movie_id : String
  deriving DecidableEq

/-- One record of `self.diary_entries` as consumed by `save_all_data`
(`src/backend/scraper.py:303-321`). -/
structure DiaryEntry where
  title : String
  year : Option Nat
  rating : Option ℚ
  is_liked : Bool
  watch_date : String
  deriving DecidableEq

/-- One record of `self.reviews_data` as consumed by `save_all_data`
(`src/backend/scraper.py:404-418`). -/
structure ReviewEntry where
  title : String
  year : Option Nat
  rating : Option ℚ
  deriving DecidableEq

/-- The dictionary `diary_lookup` (`src/backend/scraper.py:677-682`):
entries with a truthy title are inserted keyed by their FilmKey, a later
entry overwriting an earlier one; the result is the entry found for a
given key, if any. -/
def diary_lookup (diary : List DiaryEntry) (key : String) : Option DiaryEntry :=
  diary.foldl
    (fun acc e => if e.title ≠ "" ∧ filmKey e.title e.year = key then some e else acc)
    none

/-- The dictionary `review_lookup` (`src/backend/scraper.py:684-688`),
built exactly like `diary_lookup`. -/
def review_lookup (reviews : List ReviewEntry) (key : String) : Option ReviewEntry :=
  reviews.foldl
    (fun acc e => if e.title ≠ "" ∧ filmKey e.title e.year = key then some e else acc)
    none

/-- One overlay step (`src/backend/scraper.py:705-706,711-712`): the
incoming rating replaces the current cell only when it is truthy and the
current cell is falsy. -/
def overlayRating (cur incoming : Option ℚ) : Option ℚ :=
  if ratingTruthy incoming ∧ ¬ ratingTruthy cur then incoming else cur

/-- The rating-resolution logic of the `save_all_data` merge loop
(`src/backend/scraper.py:695-712`): start from `film['rating'] or ''`
(a falsy rating becomes the empty cell, modelled `none`), then overlay
the diary entry for the same FilmKey when present, then the review entry
when present. -/
def resolveRating (filmRating : Option ℚ)
    (diaryEntry : Option DiaryEntry) (reviewEntry : Option ReviewEntry) : Option ℚ :=
  let cell0 := if ratingTruthy filmRating then filmRating else none
  let cell1 :=
    match diaryEntry with
    | none => cell0
    | some d => overlayRating cell0 d.rating
  match reviewEntry with
  | none => cell1
  | some r => overlayRating cell1 r.rating

/-- One row of `ratings.csv` (`src/backend/scraper.py:696-700`): Name,
Year (empty cell modelled `none`), Rating (the resolved cell; `none`
models the empty string cell). -/
structure RatingRow where
  name : String
  year : Option Nat
  rating : Option ℚ
  deriving DecidableEq

/-- The row the merge loop assembles for one film of the universal set
(`src/backend/scraper.py:695-712`). -/
def resolvedRow (f : MovieData) (diary : List DiaryEntry) (reviews : List ReviewEntry) :
    RatingRow :=
  let key := filmKey f.title f.year
  { name := f.title
    year := pyYear f.year
    rating := resolveRating f.rating (diary_lookup diary key) (review_lookup reviews key) }

/-- The `all_ratings` list built by `save_all_data`
(`src/backend/scraper.py:690-716`): films with a truthy title are
resolved against the diary and review lookups, and a row is kept only
when `rating_entry['Rating'] and str(rating_entry['Rating']).strip()` is
truthy.  The resolved cell is either the empty string (modelled `none`)
or a float, and `str` of a float is never empty or whitespace, so the
kept rows are exactly those whose resolved cell is a truthy float. -/
def save_all_data_ratings (films : List MovieData)
    (diary : List DiaryEntry) (reviews : List ReviewEntry) : List RatingRow :=
  films.filterMap fun f =>
    if f.title = "" then none
    else
      let row := resolvedRow f diary reviews
      if ratingTruthy row.rating then some row else none

/-- One row of `likes.csv` (`src/backend/scraper.py:732-736,748-752`). -/
structure LikeRow where
  name : String
  year : Option Nat
  date : String
  deriving DecidableEq

/-- The dedup key `f"{like['Name']}_{like['Year'] or 'no_year'}"` compared
against a diary like (`src/backend/scraper.py:747`). -/
def likeKey (like : LikeRow) : String :=
  like.name ++ "_" ++ yearStr like.year

/-- The diary half of the likes loop (`src/backend/scraper.py:739-753`).
Line 744 reads the variable `film` left over from the films loop at line
730; when `films_data` is empty that name is unbound and Python raises a
`NameError` the first time a liked diary entry is processed, modelled as
`Except.error`. -/
def diaryLikesLoop (filmsEmpty : Bool) :
    List LikeRow → List DiaryEntry → Except Unit (List LikeRow)
  | acc, [] => .ok acc
  | acc, e :: rest =>
    if e.title ≠ "" ∧ e.is_liked then
      if filmsEmpty then .error ()
      else
        let lk := filmKey e.title e.year
        if acc.any fun like => likeKey like = lk then
          diaryLikesLoop filmsEmpty acc rest
        else
          diaryLikesLoop filmsEmpty
            (acc ++ [{ name := e.title, year := pyYear e.year, date := e.watch_date }]) rest
    else diaryLikesLoop filmsEmpty acc rest

/-- The `all_likes` list built by `save_all_data`
(`src/backend/scraper.py:725-753`): likes from the universal film set,
then diary likes deduplicated against the accumulated list. -/
def save_all_data_likes (films : List MovieData) (diary : List DiaryEntry) :
    Except Unit (List LikeRow) :=
  let filmLikes := films.filterMap fun f =>
    if f.title ≠ "" ∧ f.is_liked then
      some { name := f.title, year := pyYear f.year, date := "" }
    else none
  diaryLikesLoop films.isEmpty filmLikes diary

/-- The reconciliation merge of `save_all_data`
(`src/backend/scraper.py:668-760`) as one function: the ratings subset
and the likes set computed from the three scraped inputs.  The merge
reads neither the clock nor any randomness source (the only `time.time()`
call of the scraper is in `extract_enhanced_movie_data`, outside these
lines), so its embedding is a pure function of the three lists. -/
def reconcile (films : List MovieData) (diary : List DiaryEntry)
    (reviews : List ReviewEntry) : List RatingRow × Except Unit (List LikeRow) :=
  (save_all_data_ratings films diary reviews, save_all_data_likes films diary)

/-- Running the reconciliation merge twice on the same inputs, keeping
both results. -/
def reconcileTwice (films : List MovieData) (diary : List DiaryEntry)
    (reviews : List ReviewEntry) :
    (List RatingRow × Except Unit (List LikeRow)) ×
      (List RatingRow × Except Unit (List LikeRow)) :=
  (reconcile films diary reviews, reconcile films diary reviews)

/-- A film candidate as parsed from one grid container before the unique
identifier is attached: the title, year, rating and like flag extracted
by `extract_enhanced_movie_data` (`src/backend/scraper.py:1154-1238`). -/
structure RawFilm where
  title : String
  year : Option Nat
  rating : Option ℚ
  is_liked : Bool
  deriving DecidableEq

/-- The unique identifier built by `extract_enhanced_movie_data`
(`src/backend/scraper.py:1240-1245`): `f"{title}_{year}"` when the year
is truthy, otherwise `f"{title}_no_year_{int(time.time()*1000000) %
1000000}"` where `t` is the microsecond clock reading at extraction
time. -/
def mkMovieId (title : String) (year : Option Nat) (t : Nat) : String :=
  if yearTruthy year then title ++ "_" ++ yearStr year
  else title ++ "_no_year_" ++ toString (t % 1000000)

/-- `extract_enhanced_movie_data` (`src/backend/scraper.py:1247-1261`)
restricted to the fields `save_all_data` consumes, with the clock reading
`t` made explicit. -/
def extract_enhanced_movie_data (f : RawFilm) (t : Nat) : MovieData :=
  { title := f.title
    year := f.year
    rating := f.rating
    is_liked := f.is_liked
    movie_id := mkMovieId f.title f.year t }

/-- The duplicate-tracking loop of `scrape_all_films`
(`src/backend/scraper.py:1306-1311`): a candidate is kept only when its
`movie_id` is not yet in the `movies_seen` set.  The input pairs each
successfully parsed container with the clock reading in effect when it
was extracted; pagination only concatenates pages, so the flattened list
is iterated in order against one `movies_seen` set. -/
def scrapeFilmsAux : List (RawFilm × Nat) → List String → List MovieData
  | [], _ => []
  | (f, t) :: rest, seen =>
    if (extract_enhanced_movie_data f t).movie_id ∈ seen then
      scrapeFilmsAux rest seen
    else
      extract_enhanced_movie_data f t ::
        scrapeFilmsAux rest ((extract_enhanced_movie_data f t).movie_id :: seen)

/-- `scrape_all_films` (`src/backend/scraper.py:1268-1337`): the
universal film set assembled from the extracted candidates, starting from
an empty `movies_seen` set. -/
def scrape_all_films (candidates : List (RawFilm × Nat)) : List MovieData :=
  scrapeFilmsAux candidates []

/-- Outcome of one HTTP GET as seen by `fetch_with_retry`: a 2xx
response, a 429 rate-limiting response, or any other
`requests.exceptions.RequestException` (timeouts, connection errors, and
the `HTTPError` that `raise_for_status` raises on non-2xx statuses). -/
inductive FetchResp
  | success
  | rateLimited
  | failGeneric
  deriving DecidableEq

/-- Result of a `fetch_with_retry` run: the attempt index that succeeded
(if any), the number of GET requests issued, and the sleep durations in
seconds, in order. -/
structure FetchTrace where
  result : Option Nat
  attempts : Nat
  waits : List Nat
  deriving DecidableEq

/-- Loop body of the first `fetch_with_retry` definition
(`src/backend/scraper.py:118-143`): `fuel` is the number of attempts
still available after the current one.  A 429 sleeps `(2 ** attempt) *
10` and continues (also on the last attempt, after which the loop ends
and the function falls through returning `None`); a generic failure
sleeps `(2 ** attempt) + 1` unless the current attempt is the last, in
which case `None` is returned immediately. -/
def fetchV1Aux (resp : Nat → FetchResp) :
    Nat → Nat → List Nat → FetchTrace
  | 0, attempt, acc => ⟨none, attempt, acc⟩
  | fuel + 1, attempt, acc =>
    match resp attempt with
    | .success => ⟨some attempt, attempt + 1, acc⟩
    | .rateLimited => fetchV1Aux resp fuel (attempt + 1) (acc ++ [2 ^ attempt * 10])
    | .failGeneric =>
      if fuel = 0 then ⟨none, attempt + 1, acc⟩
      else fetchV1Aux resp fuel (attempt + 1) (acc ++ [2 ^ attempt + 1])

/-- The first `fetch_with_retry` definition
(`src/backend/scraper.py:118-143`, default `max_retries = 5`), which
handles HTTP 429 specially.  It is shadowed by the second definition of
the same name later in the class body and is therefore never the method
that `self.fetch_with_retry` resolves to at run time. -/
def fetch_with_retry_v1 (resp : Nat → FetchResp) (max_retries : Nat := 5) : FetchTrace :=
  fetchV1Aux resp max_retries 0 []

/-- Loop body of the second `fetch_with_retry` definition
(`src/backend/scraper.py:1135-1152`): there is no 429 branch, so a 429
response makes `raise_for_status` raise `HTTPError`, which the generic
`RequestException` handler catches; every failure sleeps `(2 ** attempt)
+ 1` unless the current attempt is the last, in which case `None` is
returned. -/
def fetchV2Aux (resp : Nat → FetchResp) :
    Nat → Nat → List Nat → FetchTrace
  | 0, attempt, acc => ⟨none, attempt, acc⟩
  | fuel + 1, attempt, acc =>
    match resp attempt with
    | .success => ⟨some attempt, attempt + 1, acc⟩
    | _ =>
      if fuel = 0 then ⟨none, attempt + 1, acc⟩
      else fetchV2Aux resp fuel (attempt + 1) (acc ++ [2 ^ attempt + 1])

/-- The `fetch_with_retry` in effect on `EnhancedLetterboxdScraper`: the
second definition (`src/backend/scraper.py:1135-1152`, default
`max_retries = 3`) shadows the first, so this is what every page
extractor actually invokes through `self.fetch_with_retry`. -/
def fetch_with_retry (resp : Nat → FetchResp) (max_retries : Nat := 3) : FetchTrace :=
  fetchV2Aux resp max_retries 0 []

/-- One row of a profile ratings table as selected by
`profile.ratings[['Name', 'Year', 'Rating']]`
(`src/unified_analyzer.py:421-426`). -/
structure RRow where
  name : String
  year : Option Nat
  rating : ℚ
  deriving DecidableEq

/-- Join condition of `pd.merge(..., on=['Name', 'Year'])`
(`src/unified_analyzer.py:421-426`). -/
def matchKey (a b : RRow) : Prop :=
  a.name = b.name ∧ a.year = b.year

instance (a b : RRow) : Decidable (matchKey a b) := by
  unfold matchKey; infer_instance

/-- The inner merge of the two ratings tables on Name and Year
(`src/unified_analyzer.py:421-426`): pandas emits, for each left row in
order, its matching right rows in order. -/
def joinRows (r1 r2 : List RRow) : List (RRow × RRow) :=
  r1.flatMap fun a =>
    r2.filterMap fun b => if matchKey a b then some (a, b) else none

/-- One element of the `common_list` built by `find_common_movies`
(`src/unified_analyzer.py:429-441`).  The two per-user rating fields are
kept positionally (first profile, second profile); in the source they are
keyed by the usernames. -/
structure CommonMovie where
  movie : String
  year : Option Nat
  rating1 : ℚ
  rating2 : ℚ
  difference : ℚ
  both_loved : Bool
  both_hated : Bool
  disagreement : Bool
  deriving DecidableEq

/-- The record built for one merged row
(`src/unified_analyzer.py:432-441`). -/
def mkCommonMovie (a b : RRow) : CommonMovie :=
  { movie := a.name
    year := a.year
    rating1 := a.rating
    rating2 := b.rating
    difference := |a.rating - b.rating|
    both_loved := decide (a.rating ≥ 4 ∧ b.rating ≥ 4)
    both_hated := decide (a.rating ≤ 2 ∧ b.rating ≤ 2)
    disagreement := decide (|a.rating - b.rating| ≥ 2) }

/-- `find_common_movies` (`src/unified_analyzer.py:415-443`): empty
result when either ratings table is empty, otherwise the merged rows
sorted by `sorted(common_list, key=lambda x: x['difference'])` — a stable
ascending sort on the difference, which `List.mergeSort` reproduces. -/
def find_common_movies (r1 r2 : List RRow) : List CommonMovie :=
  if r1.isEmpty ∨ r2.isEmpty then []
  else
    ((joinRows r1 r2).map fun p => mkCommonMovie p.1 p.2).mergeSort
      fun x y => decide (x.difference ≤ y.difference)

/-- The `rating_agreement` dictionary of `calculate_compatibility`
(`src/unified_analyzer.py:457-474`): either the no-common-movies default
`{'score': 0, 'common_movies_count': 0}` or the full statistics block. -/
inductive RatingAgreement
  | noCommon
  | stats (score avg_difference : ℚ)
      (both_loved_count both_hated_count major_disagreements common_movies_count : Nat)
  deriving DecidableEq

/-- The `rating_agreement` block of `calculate_compatibility`
(`src/unified_analyzer.py:447,457-474`): statistics over the common
movies of the two profiles. -/
def rating_agreement (r1 r2 : List RRow) : RatingAgreement :=
  let common := find_common_movies r1 r2
  if common.isEmpty then .noCommon
  else
    let avg_difference := (common.map fun m => m.difference).sum / (common.length : ℚ)
    let score := max 0 ((5 - avg_difference) / 5)
    .stats score avg_difference
      (common.countP fun m => m.both_loved)
      (common.countP fun m => m.both_hated)
      (common.countP fun m => m.disagreement)
      common.length

/-- The decision tree of `generate_personality_profile`
(`src/unified_analyzer.py:389-405`), returning the personality type
string from the harsh-critic ratio, the generous-rater ratio and the
review-engagement score. -/
def personality_type (harsh_ratio generous_ratio engagement : ℚ) : String :=
  if harsh_ratio > (0.25 : ℚ) then "discerning_critic"
  else if generous_ratio > (0.4 : ℚ) then "enthusiastic_fan"
  else if engagement > (0.5 : ℚ) then "thoughtful_reviewer"
  else "casual_viewer"

/-- Boolean test that the first character list starts with the second. -/
def startsWithChars : List Char → List Char → Bool
  | _, [] => true
  | [], _ :: _ => false
  | c :: cs, d :: ds => c = d && startsWithChars cs ds

/-- Boolean substring test on character lists (the haystack is the first
argument), embedding the Python `in` operator on strings. -/
def hasSubChars : List Char → List Char → Bool
  | [], needle => startsWithChars [] needle
  | c :: t, needle => startsWithChars (c :: t) needle || hasSubChars t needle

/-- Python `needle in hay` for strings. -/
def pyIn (needle hay : String) : Bool :=
  hasSubChars hay.data needle.data

/-- The `personality_match` block of `calculate_compatibility`
(`src/unified_analyzer.py:505-513`): 0.9 for identical types, 0.7 when
both type names contain "critic" or both contain "fan", else the 0.5
base score. -/
def personality_match (t1 t2 : String) : ℚ :=
  if t1 = t2 then (0.9 : ℚ)
  else if (pyIn "critic" t1 && pyIn "critic" t2) || (pyIn "fan" t1 && pyIn "fan" t2) then
    (0.7 : ℚ)
  else (0.5 : ℚ)

/-! ### Helper lemmas -/

/-- An overlay step preserves the invariant that the cell is either empty
or truthy, since it only ever writes a truthy value. -/
lemma overlayRating_none_or_truthy (c r : Option ℚ)
    (hc : c = none ∨ ratingTruthy c = true) :
    overlayRating c r = none ∨ ratingTruthy (overlayRating c r) = true := by
  unfold overlayRating
  split_ifs with h
  · exact Or.inr h.1
  · exact hc

/-- The initial cell `film['rating'] or ''` is empty or truthy. -/
lemma cell0_none_or_truthy (fr : Option ℚ) :
    (if ratingTruthy fr then fr else none) = none ∨
      ratingTruthy (if ratingTruthy fr then fr else none) = true := by
  split_ifs with h
  · exact Or.inr h
  · exact Or.inl rfl

/-- The resolved rating cell is either the empty cell or a truthy
(nonzero) value: the merge starts from a truthy-or-empty cell and each
overlay writes only truthy values. -/
lemma resolveRating_none_or_truthy (fr : Option ℚ)
    (de : Option DiaryEntry) (re : Option ReviewEntry) :
    resolveRating fr de re = none ∨ ratingTruthy (resolveRating fr de re) = true := by
  rcases de with _ | d <;> rcases re with _ | r
  · exact cell0_none_or_truthy fr
  · exact overlayRating_none_or_truthy _ r.rating (cell0_none_or_truthy fr)
  · exact overlayRating_none_or_truthy _ d.rating (cell0_none_or_truthy fr)
  · exact overlayRating_none_or_truthy _ r.rating
      (overlayRating_none_or_truthy _ d.rating (cell0_none_or_truthy fr))

lemma ratingTruthy_iff_ne_none (x : Option ℚ)
    (hx : x = none ∨ ratingTruthy x = true) :
    ratingTruthy x = true ↔ x ≠ none := by
  rcases hx with h | h
  · simp [h, ratingTruthy]
  · refine ⟨fun _ he => ?_, fun _ => h⟩
    rw [he] at h
    simp [ratingTruthy] at h

/-! ### C1: source priority of the rating overlay -/

/-- C1.  For a film of the universal set whose FilmKey has both a diary
entry and a review entry, the merge loop of `save_all_data` resolves the
rating by fixed priority: the film record's own rating when truthy, else
the diary rating when truthy, else the review rating when truthy, else
the empty cell.  In particular, when all three sources carry (different)
ratings, the resolved rating is the universal-set one. -/
theorem rating_source_priority (fr : Option ℚ) (d : DiaryEntry) (r : ReviewEntry) :
    resolveRating fr (some d) (some r) =
      if ratingTruthy fr then fr
      else if ratingTruthy d.rating then d.rating
      else if ratingTruthy r.rating then r.rating
      else none := by
  unfold resolveRating overlayRating
  by_cases h1 : ratingTruthy fr <;> by_cases h2 : ratingTruthy d.rating <;>
    by_cases h3 : ratingTruthy r.rating <;> simp_all [ratingTruthy]

/-! ### C3: membership in the emitted ratings subset -/

/-- C3.  A film of the universal set with a truthy title is emitted into
the ratings subset exactly when its resolved rating cell is non-empty;
and every emitted row carries a present, nonzero numeric rating — whose
Python string form is non-empty after trimming — so films whose resolved
cell is absent never appear. -/
theorem ratings_subset_membership (films : List MovieData) (diary : List DiaryEntry)
    (reviews : List ReviewEntry) (f : MovieData) (hf : f ∈ films) (ht : f.title ≠ "") :
    (resolvedRow f diary reviews ∈ save_all_data_ratings films diary reviews ↔
      (resolvedRow f diary reviews).rating ≠ none) ∧
    ∀ row ∈ save_all_data_ratings films diary reviews, ∃ q, row.rating = some q ∧ q ≠ 0 := by
  have emitted : ∀ row ∈ save_all_data_ratings films diary reviews,
      ∃ q, row.rating = some q ∧ q ≠ 0 := by
    intro row hrow
    rw [save_all_data_ratings, List.mem_filterMap] at hrow
    obtain ⟨g, _, hg⟩ := hrow
    by_cases hg1 : g.title = ""
    · simp [hg1] at hg
    · simp only [hg1, if_false] at hg
      by_cases hg2 : ratingTruthy (resolvedRow g diary reviews).rating
      · rw [if_pos hg2] at hg
        cases hrat : (resolvedRow g diary reviews).rating with
        | none => rw [hrat] at hg2; simp [ratingTruthy] at hg2
        | some q =>
          rw [hrat] at hg2
          simp only [ratingTruthy, decide_eq_true_eq] at hg2
          have hrow_eq : resolvedRow g diary reviews = row := by injection hg
          exact ⟨q, by rw [← hrow_eq]; exact hrat, hg2⟩
      · rw [if_neg hg2] at hg; cases hg
  refine ⟨⟨fun hmem => ?_, fun hres => ?_⟩, emitted⟩
  · obtain ⟨q, hq, _⟩ := emitted _ hmem
    simp [hq]
  · have htr : ratingTruthy (resolvedRow f diary reviews).rating = true := by
      rw [ratingTruthy_iff_ne_none]
      · exact hres
      · exact resolveRating_none_or_truthy f.rating _ _
    rw [save_all_data_ratings, List.mem_filterMap]
    exact ⟨f, hf, by simp [ht, htr]⟩

/-! ### C4: the reconciliation merge is idempotent and deterministic -/

/-- C4.  Running the reconciliation merge of `save_all_data` twice on the
same (universal films, diary, reviews) inputs produces identical ratings
and likes record sets, equal to a single run: the merge is a pure
function of its three inputs — the source lines 668-760 consult neither
a randomness source nor the wall clock. -/
theorem reconcile_idempotent (films : List MovieData) (diary : List DiaryEntry)
    (reviews : List ReviewEntry) :
    (reconcileTwice films diary reviews).1 = (reconcileTwice films diary reviews).2 ∧
    (reconcileTwice films diary reviews).2 = reconcile films diary reviews :=
  ⟨rfl, rfl⟩

/-! ### C7: star-symbol conversion -/

/-- C7.  `convert_stars_to_rating` computes full-star count plus half a
half-star count: any string with exactly three full-star symbols and one
half-star symbol converts to 3.5, and any string containing no star
symbol at all converts to `None`, never `0.0`. -/
theorem convert_stars_spec (s : String) :
    (s.data.count '★' = 3 → s.data.count '½' = 1 →
      convert_stars_to_rating s = some (3.5 : ℚ)) ∧
    (s.data.count '★' = 0 → s.data.count '½' = 0 →
      convert_stars_to_rating s = none) := by
  constructor
  · intro h3 h1
    have hne : s ≠ "" := by
      intro he
      rw [he] at h3
      simp at h3
    unfold convert_stars_to_rating
    rw [if_neg hne, h3, h1]
    norm_num
  · intro h0 h0'
    unfold convert_stars_to_rating
    by_cases hne : s = ""
    · rw [if_pos hne]
    · rw [if_neg hne, h0, h0']
      norm_num

/-- Witness for `convert_stars_spec`: both hypothesis groups discharged
at concrete inputs. -/
theorem convert_stars_spec_witness :
    convert_stars_to_rating "★★★½" = some (3.5 : ℚ) ∧
    convert_stars_to_rating "abc" = none :=
  ⟨(convert_stars_spec "★★★½").1 (by decide) (by decide),
   (convert_stars_spec "abc").2 (by decide) (by decide)⟩

/-- Witness for `ratings_subset_membership` at a one-film universal set
with empty diary and reviews. -/
theorem ratings_subset_membership_witness :
    (⟨"A", some 2000, some 4, false, "A_2000"⟩ : MovieData) ∈
        [(⟨"A", some 2000, some 4, false, "A_2000"⟩ : MovieData)] ∧
    (⟨"A", some 2000, some 4, false, "A_2000"⟩ : MovieData).title ≠ "" ∧
    ((resolvedRow ⟨"A", some 2000, some 4, false, "A_2000"⟩ [] [] ∈
        save_all_data_ratings [⟨"A", some 2000, some 4, false, "A_2000"⟩] [] [] ↔
      (resolvedRow ⟨"A", some 2000, some 4, false, "A_2000"⟩ [] []).rating ≠ none) ∧
    ∀ row ∈ save_all_data_ratings [⟨"A", some 2000, some 4, false, "A_2000"⟩] [] [],
      ∃ q, row.rating = some q ∧ q ≠ 0) :=
  ⟨by decide, by decide,
    ratings_subset_membership [⟨"A", some 2000, some 4, false, "A_2000"⟩] [] []
      ⟨"A", some 2000, some 4, false, "A_2000"⟩ (by decide) (by decide)⟩

/-! ### C5 and C6: retry behaviour of the fetcher -/

lemma fetchV1Aux_allRateLimited (resp : Nat → FetchResp)
    (h : ∀ n, resp n = .rateLimited) :
    ∀ fuel attempt acc, (fetchV1Aux resp fuel attempt acc).result = none ∧
      (fetchV1Aux resp fuel attempt acc).attempts = attempt + fuel := by
  intro fuel
  induction fuel with
  | zero => intro attempt acc; exact ⟨rfl, rfl⟩
  | succ n ih =>
    intro attempt acc
    have hr := h attempt
    simp only [fetchV1Aux, hr]
    have := ih (attempt + 1) (acc ++ [2 ^ attempt * 10])
    exact ⟨this.1, by rw [this.2]; omega⟩

lemma fetchV2Aux_allRateLimited (resp : Nat → FetchResp)
    (h : ∀ n, resp n = .rateLimited) :
    ∀ fuel attempt acc, (fetchV2Aux resp fuel attempt acc).result = none ∧
      (fetchV2Aux resp fuel attempt acc).attempts = attempt + fuel := by
  intro fuel
  induction fuel with
  | zero => intro attempt acc; exact ⟨rfl, rfl⟩
  | succ n ih =>
    intro attempt acc
    have hr := h attempt
    simp only [fetchV2Aux, hr]
    by_cases hn : n = 0
    · subst hn
      rw [if_pos rfl]
      exact ⟨rfl, rfl⟩
    · rw [if_neg hn]
      have := ih (attempt + 1) (acc ++ [2 ^ attempt + 1])
      exact ⟨this.1, by rw [this.2]; omega⟩

/-- C6.  Against a target that answers HTTP 429 on every attempt, both
`fetch_with_retry` definitions — the one in effect
(`src/backend/scraper.py:1135-1152`) and the shadowed first one
(`src/backend/scraper.py:118-143`) — terminate after exactly the
configured number of attempts and return `None` (a definitive failure),
rather than raising or looping. -/
theorem fetch_with_retry_429_terminates (resp : Nat → FetchResp) (max_retries : Nat)
    (h : ∀ n, resp n = .rateLimited) :
    (fetch_with_retry resp max_retries).result = none ∧
    (fetch_with_retry resp max_retries).attempts ≤ max_retries ∧
    (fetch_with_retry_v1 resp max_retries).result = none ∧
    (fetch_with_retry_v1 resp max_retries).attempts ≤ max_retries := by
  have h2 := fetchV2Aux_allRateLimited resp h max_retries 0 []
  have h1 := fetchV1Aux_allRateLimited resp h max_retries 0 []
  exact ⟨h2.1, by rw [show fetch_with_retry resp max_retries =
      fetchV2Aux resp max_retries 0 [] from rfl, h2.2]; omega,
    h1.1, by rw [show fetch_with_retry_v1 resp max_retries =
      fetchV1Aux resp max_retries 0 [] from rfl, h1.2]; omega⟩

/-- Witness for `fetch_with_retry_429_terminates` at the constant-429
responder and the in-effect default of three attempts. -/
theorem fetch_with_retry_429_terminates_witness :
    (fetch_with_retry (fun _ => .rateLimited) 3).result = none ∧
    (fetch_with_retry (fun _ => .rateLimited) 3).attempts ≤ 3 ∧
    (fetch_with_retry_v1 (fun _ => .rateLimited) 3).result = none ∧
    (fetch_with_retry_v1 (fun _ => .rateLimited) 3).attempts ≤ 3 :=
  fetch_with_retry_429_terminates (fun _ => .rateLimited) 3 (fun _ => rfl)

/-- C5.  Evaluation at a target that always answers HTTP 429: the
`fetch_with_retry` actually invoked by the page extractors (the second,
shadowing definition, default three attempts) sleeps the generic backoff
`2 ^ attempt + 1` — 2 s then 3 s — and never the long rate-limit backoff
`2 ^ attempt * 10` that only the shadowed first definition performs
(10, 20, 40, 80, 160 s over its five default attempts). -/
theorem fetch_with_retry_429_shadowed :
    fetch_with_retry (fun _ => .rateLimited) 3 =
      { result := none, attempts := 3, waits := [2, 3] } ∧
    fetch_with_retry_v1 (fun _ => .rateLimited) 5 =
      { result := none, attempts := 5, waits := [10, 20, 40, 80, 160] } ∧
    (2 : Nat) ≠ 2 ^ 0 * 10 := by
  refine ⟨rfl, rfl, by decide⟩

/-! ### C10: reachable personality-match values -/

lemma personality_match_self (t : String) : personality_match t t = (0.9 : ℚ) := by
  unfold personality_match
  rw [if_pos rfl]

lemma personality_match_base (t1 t2 : String) (hne : t1 ≠ t2)
    (hc : ¬((pyIn "critic" t1 && pyIn "critic" t2) ||
        (pyIn "fan" t1 && pyIn "fan" t2)) = true) :
    personality_match t1 t2 = (0.5 : ℚ) := by
  unfold personality_match
  rw [if_neg hne, if_neg hc]

lemma personality_type_cases (h g e : ℚ) :
    personality_type h g e = "discerning_critic" ∨
    personality_type h g e = "enthusiastic_fan" ∨
    personality_type h g e = "thoughtful_reviewer" ∨
    personality_type h g e = "casual_viewer" := by
  unfold personality_type
  split_ifs <;> simp

/-- C10.  For any two profiles, the `personality_match` component of
`calculate_compatibility` evaluates to 0.9 exactly when the two
personality types coincide and to the 0.5 base score otherwise: among the
four types `generate_personality_profile` can produce, only
`discerning_critic` contains "critic" and only `enthusiastic_fan`
contains "fan", so the 0.7 same-family branch is unreachable. -/
theorem personality_match_values (h g e h2 g2 e2 : ℚ) :
    personality_match (personality_type h g e) (personality_type h2 g2 e2) =
      if personality_type h g e = personality_type h2 g2 e2 then (0.9 : ℚ)
      else (0.5 : ℚ) := by
  rcases personality_type_cases h g e with h1 | h1 | h1 | h1 <;>
    rcases personality_type_cases h2 g2 e2 with hb | hb | hb | hb <;>
      rw [h1, hb] <;>
        first
          | (rw [if_pos rfl]; exact personality_match_self _)
          | (rw [if_neg (by decide)]
             exact personality_match_base _ _ (by decide) (by decide))

/-! ### C2: duplicate tracking in the universal film set -/

lemma mkMovieId_of_yearTruthy (title : String) (y : Option Nat) (c : Nat)
    (h : yearTruthy y = true) : mkMovieId title y c = title ++ "_" ++ yearStr y := by
  unfold mkMovieId
  rw [if_pos h]

/-- Invariant of the `movies_seen` dedup loop: every kept record's id was
built by `mkMovieId` from its own title and year, no kept record's id is
in the incoming seen set, and the kept ids are pairwise distinct. -/
lemma scrapeFilmsAux_spec (l : List (RawFilm × Nat)) : ∀ seen : List String,
    (∀ m ∈ scrapeFilmsAux l seen,
      (∃ t, m.movie_id = mkMovieId m.title m.year t) ∧ m.movie_id ∉ seen) ∧
    (scrapeFilmsAux l seen).Pairwise (fun a b => a.movie_id ≠ b.movie_id) := by
  induction l with
  | nil =>
    intro seen
    constructor
    · intro m hm
      simp [scrapeFilmsAux] at hm
    · simp [scrapeFilmsAux]
  | cons p rest ih =>
    intro seen
    obtain ⟨f, t⟩ := p
    by_cases h : (extract_enhanced_movie_data f t).movie_id ∈ seen
    · have hred : scrapeFilmsAux ((f, t) :: rest) seen = scrapeFilmsAux rest seen := by
        simp only [scrapeFilmsAux]
        rw [if_pos h]
      rw [hred]
      exact ih seen
    · have hred : scrapeFilmsAux ((f, t) :: rest) seen =
          extract_enhanced_movie_data f t ::
            scrapeFilmsAux rest ((extract_enhanced_movie_data f t).movie_id :: seen) := by
        simp only [scrapeFilmsAux]
        rw [if_neg h]
      rw [hred]
      obtain ⟨ihMem, ihPW⟩ := ih ((extract_enhanced_movie_data f t).movie_id :: seen)
      constructor
      · intro m hm
        rcases List.mem_cons.mp hm with heq | hm'
        · subst heq
          exact ⟨⟨t, rfl⟩, h⟩
        · obtain ⟨hex, hnotin⟩ := ihMem m hm'
          exact ⟨hex, fun hc => hnotin (List.mem_cons_of_mem _ hc)⟩
      · rw [List.pairwise_cons]
        refine ⟨fun b hb => ?_, ihPW⟩
        obtain ⟨_, hnotin⟩ := ihMem b hb
        intro hc
        exact hnotin (by rw [← hc]; exact List.mem_cons_self _ _)

lemma pyYear_eq_some {x : Option Nat} {y : Nat} (h : pyYear x = some y) :
    x = some y ∧ y ≠ 0 := by
  cases x with
  | none => cases h
  | some z =>
    simp only [pyYear] at h
    by_cases hz : z = 0
    · rw [if_pos hz] at h
      cases h
    · rw [if_neg hz] at h
      injection h with h
      exact ⟨by rw [h], h ▸ hz⟩

/-- The emission function of `save_all_data_ratings` only ever produces
the resolved row of its film. -/
lemma save_emit_eq (diary : List DiaryEntry) (reviews : List ReviewEntry)
    (f : MovieData) (row : RatingRow)
    (h : (if f.title = "" then none
      else
        let r := resolvedRow f diary reviews
        if ratingTruthy r.rating then some r else none) = some row) :
    row = resolvedRow f diary reviews := by
  by_cases h1 : f.title = ""
  · rw [if_pos h1] at h
    cases h
  · rw [if_neg h1] at h
    dsimp only at h
    by_cases h2 : ratingTruthy (resolvedRow f diary reviews).rating
    · rw [if_pos h2] at h
      injection h with h
      exact h.symm
    · rw [if_neg h2] at h
      cases h

/-- C2, amended.  Uniqueness per FilmKey holds for dated films: the
universal set assembled by `scrape_all_films` never keeps two records
with the same title and the same truthy year, and the emitted ratings
subset never holds two rows with the same name and the same non-null
year.  (For records lacking a year the `movie_id` carries a clock-derived
suffix, so the no-year bucket of a title can keep several records — see
the counterexample.) -/
theorem scrape_films_dated_key_unique (l : List (RawFilm × Nat))
    (diary : List DiaryEntry) (reviews : List ReviewEntry) :
    (scrape_all_films l).Pairwise
      (fun a b => ¬(a.title = b.title ∧ a.year = b.year ∧ yearTruthy a.year = true)) ∧
    (save_all_data_ratings (scrape_all_films l) diary reviews).Pairwise
      (fun a b => ¬(a.name = b.name ∧ a.year = b.year ∧ ∃ y, a.year = some y)) := by
  obtain ⟨hMem, hPW⟩ := scrapeFilmsAux_spec l []
  have hfilms : (scrape_all_films l).Pairwise
      (fun a b => ¬(a.title = b.title ∧ a.year = b.year ∧ yearTruthy a.year = true)) := by
    refine hPW.imp_of_mem ?_
    intro a b ha hb hne ⟨ht, hy, htr⟩
    obtain ⟨⟨ta, hida⟩, _⟩ := hMem a ha
    obtain ⟨⟨tb, hidb⟩, _⟩ := hMem b hb
    apply hne
    rw [hida, hidb, mkMovieId_of_yearTruthy _ _ _ htr,
      mkMovieId_of_yearTruthy _ _ _ (hy ▸ htr), ht, hy]
  refine ⟨hfilms, ?_⟩
  rw [save_all_data_ratings, List.pairwise_filterMap]
  refine hfilms.imp ?_
  intro a b hab row hrow row' hrow'
  have hr := save_emit_eq diary reviews a row (Option.mem_def.mp hrow)
  have hr' := save_emit_eq diary reviews b row' (Option.mem_def.mp hrow')
  rintro ⟨hn, hy, y, hsome⟩
  subst hr
  subst hr'
  obtain ⟨hay, hy0⟩ := pyYear_eq_some hsome
  obtain ⟨hby, _⟩ := pyYear_eq_some (hy ▸ hsome)
  exact hab ⟨hn, by rw [hay, hby], by rw [hay]; simp [yearTruthy, hy0]⟩

/-- C2, counterexample to the claim as stated.  Two no-year records with
the same title extracted at different microsecond timestamps receive
distinct clock-suffixed ids, so both survive the `movies_seen` dedup and
both reach the emitted ratings subset: the no-year bucket of a title does
not hold at most one record. -/
theorem scrape_noYear_duplicate :
    (scrape_all_films [(⟨"A", none, some 5, false⟩, 0), (⟨"A", none, some 4, false⟩, 1)]).map
        (fun m => (m.title, m.year)) = [("A", none), ("A", none)] ∧
    (save_all_data_ratings
        (scrape_all_films [(⟨"A", none, some 5, false⟩, 0), (⟨"A", none, some 4, false⟩, 1)])
        [] []).map (fun r => (r.name, r.year)) = [("A", none), ("A", none)] := by
  constructor <;> rfl

/-! ### C8: ordering of the common-films list -/

/-- C8.  For profiles with non-empty ratings tables, the common-movies
list returned by `find_common_movies` is sorted in ascending order of the
per-film absolute rating difference (so differences like [0, 2, 1] come
out ordered [0, 1, 2]). -/
theorem common_movies_sorted (r1 r2 : List RRow) (h1 : r1 ≠ []) (h2 : r2 ≠ []) :
    (find_common_movies r1 r2).Pairwise fun x y => x.difference ≤ y.difference := by
  unfold find_common_movies
  rw [if_neg (by simp [h1, h2])]
  have hs := @List.sorted_mergeSort CommonMovie
    (fun x y : CommonMovie => decide (x.difference ≤ y.difference))
    (fun a b c hab hbc => by
      simp only [decide_eq_true_eq] at *
      exact le_trans hab hbc)
    (fun a b => by
      simp only [Bool.or_eq_true, decide_eq_true_eq]
      exact le_total _ _)
    ((joinRows r1 r2).map fun p => mkCommonMovie p.1 p.2)
  exact hs.imp fun hab => by simpa using hab

/-- Witness for `common_movies_sorted` at two one-film profiles sharing
the film. -/
theorem common_movies_sorted_witness :
    ([⟨"Heat", some 1995, 5⟩] : List RRow) ≠ [] ∧
    ([⟨"Heat", some 1995, 4⟩] : List RRow) ≠ [] ∧
    (find_common_movies [⟨"Heat", some 1995, 5⟩] [⟨"Heat", some 1995, 4⟩]).Pairwise
      (fun x y => x.difference ≤ y.difference) :=
  ⟨by decide, by decide,
    common_movies_sorted [⟨"Heat", some 1995, 5⟩] [⟨"Heat", some 1995, 4⟩]
      (by decide) (by decide)⟩

/-! ### C9: symmetry of the rating-agreement block -/

lemma joinRows_nil_right (r : List RRow) : joinRows r [] = [] := by
  unfold joinRows
  induction r with
  | nil => rfl
  | cons a t ih => rw [List.flatMap_cons, ih, List.filterMap_nil, List.nil_append]

lemma matchKey_symm {a b : RRow} (h : matchKey a b) : matchKey b a :=
  ⟨h.1.symm, h.2.symm⟩

lemma filterMap_if_map_swap (a : RRow) (r : List RRow) :
    (r.filterMap fun b => if matchKey a b then some (a, b) else none).map Prod.swap =
      r.filterMap fun b => if matchKey b a then some (b, a) else none := by
  rw [List.map_filterMap]
  apply List.filterMap_congr
  intro b _
  by_cases h : matchKey a b
  · rw [if_pos h, if_pos (matchKey_symm h)]
    rfl
  · rw [if_neg h, if_neg fun hc => h (matchKey_symm hc)]
    rfl

lemma flatMap_ite_singleton (r : List RRow) (a : RRow) :
    (r.flatMap fun b => (if matchKey b a then [(b, a)] else [])) =
      r.filterMap fun b => if matchKey b a then some (b, a) else none := by
  induction r with
  | nil => rfl
  | cons c t iht =>
    rw [List.flatMap_cons, List.filterMap_cons]
    by_cases h : matchKey c a
    · simp only [if_pos h]
      rw [iht]
      rfl
    · simp only [if_neg h]
      rw [iht]
      rfl

/-- The inner merge is symmetric up to reordering: joining the tables in
the other order yields a permutation of the swapped pairs. -/
lemma joinRows_swap (r1 r2 : List RRow) :
    List.Perm (joinRows r2 r1) ((joinRows r1 r2).map Prod.swap) := by
  induction r1 with
  | nil =>
    rw [joinRows_nil_right]
    exact List.Perm.refl _
  | cons a r1' ih =>
    have hrhs : (joinRows (a :: r1') r2).map Prod.swap =
        (r2.filterMap fun b => if matchKey b a then some (b, a) else none) ++
          (joinRows r1' r2).map Prod.swap := by
      rw [show joinRows (a :: r1') r2 =
          (r2.filterMap fun b => if matchKey a b then some (a, b) else none) ++
            joinRows r1' r2 by
        rw [joinRows, List.flatMap_cons]
        rfl]
      rw [List.map_append, filterMap_if_map_swap]
    have hlhs : joinRows r2 (a :: r1') =
        r2.flatMap fun b => (if matchKey b a then [(b, a)] else []) ++
          r1'.filterMap fun c => if matchKey b c then some (b, c) else none := by
      rw [joinRows]
      congr 1
      funext b
      rw [List.filterMap_cons]
      by_cases h : matchKey b a
      · rw [if_pos h, if_pos h]
        rfl
      · rw [if_neg h, if_neg h]
        rfl
    rw [hrhs, hlhs]
    refine ((List.flatMap_append_perm r2 _ _).symm).trans ?_
    rw [flatMap_ite_singleton]
    exact List.Perm.append_left _ ih

/-- The unsorted merged pairs underlying `find_common_movies r1 r2`. -/
lemma find_common_perm (r1 r2 : List RRow) :
    List.Perm (find_common_movies r1 r2)
      ((joinRows r1 r2).map fun p => mkCommonMovie p.1 p.2) := by
  unfold find_common_movies
  split_ifs with h
  · rcases h with h | h
    · rw [List.isEmpty_iff] at h
      rw [h]
      exact List.Perm.refl _
    · rw [List.isEmpty_iff] at h
      rw [h, joinRows_nil_right]
      exact List.Perm.refl _
  · exact List.mergeSort_perm _ _

/-- The reversed-order common movies are a permutation of the same merged
pairs with the two rating roles swapped. -/
lemma find_common_perm_swap (r1 r2 : List RRow) :
    List.Perm (find_common_movies r2 r1)
      ((joinRows r1 r2).map fun p => mkCommonMovie p.2 p.1) := by
  refine (find_common_perm r2 r1).trans ?_
  refine ((joinRows_swap r1 r2).map _).trans ?_
  rw [List.map_map]
  exact List.Perm.refl _

lemma mkCommonMovie_swap_diff (a b : RRow) :
    (mkCommonMovie b a).difference = (mkCommonMovie a b).difference := by
  simp only [mkCommonMovie]
  exact abs_sub_comm _ _

lemma mkCommonMovie_swap_loved (a b : RRow) :
    (mkCommonMovie b a).both_loved = (mkCommonMovie a b).both_loved := by
  simp only [mkCommonMovie]
  exact decide_eq_decide.mpr and_comm

lemma mkCommonMovie_swap_hated (a b : RRow) :
    (mkCommonMovie b a).both_hated = (mkCommonMovie a b).both_hated := by
  simp only [mkCommonMovie]
  exact decide_eq_decide.mpr and_comm

lemma mkCommonMovie_swap_disagreement (a b : RRow) :
    (mkCommonMovie b a).disagreement = (mkCommonMovie a b).disagreement := by
  simp only [mkCommonMovie]
  rw [abs_sub_comm]

/-- C9.  The `rating_agreement` block of `calculate_compatibility` is
symmetric in the two profiles: score, average difference, both-loved,
both-hated and major-disagreement counts and the common-movies count all
agree between compare(A,B) and compare(B,A), because the per-film
difference and predicates are invariant under swapping the two ratings
(only the per-user field labels swap in the source dictionaries). -/
theorem rating_agreement_symm (r1 r2 : List RRow) :
    rating_agreement r1 r2 = rating_agreement r2 r1 := by
  have p12 := find_common_perm r1 r2
  have p21 := find_common_perm_swap r1 r2
  have hlen : (find_common_movies r1 r2).length = (find_common_movies r2 r1).length := by
    rw [p12.length_eq, p21.length_eq, List.length_map, List.length_map]
  have hsum : ((find_common_movies r1 r2).map fun m => m.difference).sum =
      ((find_common_movies r2 r1).map fun m => m.difference).sum := by
    rw [(p12.map fun m => m.difference).sum_eq, (p21.map fun m => m.difference).sum_eq,
      List.map_map, List.map_map]
    congr 1
    congr 1
    funext p
    simp only [Function.comp]
    exact (mkCommonMovie_swap_diff p.1 p.2).symm
  have hbl : ((find_common_movies r1 r2).countP fun m => m.both_loved) =
      ((find_common_movies r2 r1).countP fun m => m.both_loved) := by
    rw [p12.countP_eq, p21.countP_eq, List.countP_map, List.countP_map]
    congr 1
    funext p
    simp only [Function.comp]
    exact (mkCommonMovie_swap_loved p.1 p.2).symm
  have hbh : ((find_common_movies r1 r2).countP fun m => m.both_hated) =
      ((find_common_movies r2 r1).countP fun m => m.both_hated) := by
    rw [p12.countP_eq, p21.countP_eq, List.countP_map, List.countP_map]
    congr 1
    funext p
    simp only [Function.comp]
    exact (mkCommonMovie_swap_hated p.1 p.2).symm
  have hmd : ((find_common_movies r1 r2).countP fun m => m.disagreement) =
      ((find_common_movies r2 r1).countP fun m => m.disagreement) := by
    rw [p12.countP_eq, p21.countP_eq, List.countP_map, List.countP_map]
    congr 1
    funext p
    simp only [Function.comp]
    exact (mkCommonMovie_swap_disagreement p.1 p.2).symm
  have hempty : (find_common_movies r1 r2).isEmpty = (find_common_movies r2 r1).isEmpty := by
    have hb : ∀ l : List CommonMovie, l.isEmpty = decide (l.length = 0) := by
      intro l
      cases l <;> rfl
    rw [hb, hb, hlen]
  unfold rating_agreement
  by_cases h : (find_common_movies r1 r2).isEmpty
  · rw [if_pos h, if_pos (hempty ▸ h)]
  · rw [if_neg h, if_neg (hempty ▸ h)]
    rw [hsum, hlen, hbl, hbh, hmd]

end Letterboxd
